import Mathlib

set_option linter.unusedVariables false

/-!
Verification of the Garmin Connect sync worker (src/main.py).

Shallow embedding conventions:
- timestamps are modelled as integers (an already-parsed datetime);
- remote numeric fields are modelled as integers, raw set weights as
  naturals (grams), kilogram values as rationals;
- the key-value store and the two relational tables are explicit state
  records, with ghost counters for the number of watermark writes and
  persisted-session writes;
- remote behaviour and database faults are supplied as parameters in a
  `Remote` record: a page request or a database statement that raises an
  exception in Python is modelled by `none` or by a fault flag;
- a Python dict access `d[k]` on a key that a given code path never set
  is a KeyError; in the embedding the conditionally-set key groups of a
  processed activity are `Option` fields and `store_activity` returns
  `Except.error` when one it binds is absent.
-/

def PAGE_SIZE : Nat := 20

/-- Raw JSON of one physical set inside an exerciseSets response. -/
structure RawSet where
  repetitionCount : Option Nat := none
  weight : Option Nat := none
  duration : Option Int := none
  restTime : Option Int := none
deriving DecidableEq

/-- Raw JSON of one exercise group inside an exerciseSets response. -/
structure RawSetGroup where
  exerciseName : Option String := none
  category : Option String := none
  sets : Option (List RawSet) := none
deriving DecidableEq

/-- A raw activity summary as returned by the activity search endpoint.
`typeKey` stands for the nested lookup activityType.typeKey; a field that
the remote omitted is `none`.  `fullExerciseSets` is the enrichment slot
that process_and_store_activities fills in for strength training. -/
structure RawActivity where
  activityId : Nat
  activityName : Option String := none
  typeKey : Option String := none
  startTimeLocal : Option Int := none
  duration : Option Int := none
  movingDuration : Option Int := none
  calories : Option Int := none
  averageHR : Option Int := none
  maxHR : Option Int := none
  distance : Option Int := none
  averageSpeed : Option Int := none
  maxSpeed : Option Int := none
  elevationGain : Option Int := none
  elevationLoss : Option Int := none
  totalReps : Option Nat := none
  totalSets : Option Nat := none
  avgPower : Option Int := none
  maxPower : Option Int := none
  normalizedPower : Option Int := none
  trainingStressScore : Option Int := none
  avgRunCadence : Option Int := none
  avgBikeCadence : Option Int := none
  maxRunCadence : Option Int := none
  maxBikeCadence : Option Int := none
  fullExerciseSets : Option (List RawSetGroup) := none
deriving DecidableEq

/-- Rounding to 2 decimal places, for the gram-to-kilogram conversion
round(w / 1000, 2). -/
def round2 (q : ℚ) : ℚ := ((round (q * 100) : ℤ) : ℚ) / 100

/-- One processed set, as built inside process_exercise_sets. -/
structure ProcessedSet where
  reps : Nat
  weight : Option ℚ
  duration : Option Int
  restTime : Option Int
deriving DecidableEq

/-- The inner loop body of process_exercise_sets: reps default to 0, a
weight that is 0 or absent (falsy) becomes null, otherwise grams are
divided by 1000 and rounded to 2 decimals. -/
def processRawSet (s : RawSet) : ProcessedSet :=
  { reps := s.repetitionCount.getD 0
  , weight :=
      match s.weight with
      | some w => if w != 0 then some (round2 ((w : ℚ) / 1000)) else none
      | none => none
  , duration := s.duration
  , restTime := s.restTime }

/-- One processed exercise group with its derived aggregates. -/
structure ProcessedGroup where
  exerciseName : String
  category : String
  sets : List ProcessedSet
  totalReps : Nat
  totalVolume : ℚ
deriving DecidableEq

/-- The volume contribution of one processed set:
reps * (weight or 0). -/
def setVolumeTerm (s : ProcessedSet) : ℚ := (s.reps : ℚ) * s.weight.getD 0

/-- The outer loop body of process_exercise_sets: a group with a falsy or
missing sets list gets an empty list. -/
def processGroup (g : RawSetGroup) : ProcessedGroup :=
  let sets :=
    match g.sets with
    | some l => if l.isEmpty then [] else l.map processRawSet
    | none => []
  { exerciseName := g.exerciseName.getD ""
  , category := g.category.getD ""
  , sets := sets
  , totalReps := (sets.map (fun s => s.reps)).sum
  , totalVolume := (sets.map setVolumeTerm).sum }

def process_exercise_sets (exerciseSets : List RawSetGroup) : List ProcessedGroup :=
  exerciseSets.map processGroup

/-- The dict keys that process_activity_data sets only in the
strength-training branch. -/
structure StrengthFields where
  exerciseSets : List ProcessedGroup
  totalReps : Option Nat
  totalSets : Option Nat
deriving DecidableEq

/-- The dict keys that process_activity_data sets only in the
cycling/running/walking branch. -/
structure EnduranceFields where
  averagePower : Option Int
  maxPower : Option Int
  normalizedPower : Option Int
  trainingStressScore : Option Int
  averageCadence : Option Int
  maxCadence : Option Int
deriving DecidableEq

/-- The processed activity dict.  The base keys are always present; the
`strength` and `endurance` groups are present only when the respective
branch of process_activity_data ran. -/
structure ProcessedActivity where
  id : Nat
  name : String
  type : String
  startTime : Option Int
  duration : Option Int
  movingTime : Option Int
  calories : Option Int
  averageHR : Option Int
  maxHR : Option Int
  distance : Option Int
  averageSpeed : Option Int
  maxSpeed : Option Int
  elevationGain : Option Int
  elevationLoss : Option Int
  createdAt : Int
  updatedAt : Int
  strength : Option StrengthFields
  endurance : Option EnduranceFields
deriving DecidableEq

/-- Python `a or b` on optional numbers: keep `a` when it is truthy
(present and nonzero), otherwise take `b`. -/
def orTruthy (a b : Option Int) : Option Int :=
  if (match a with | some v => v != 0 | none => false) then a else b

/-- Python truthiness of the optional fullExerciseSets list. -/
def truthyGroups (l : Option (List RawSetGroup)) : Bool :=
  match l with
  | some gs => !gs.isEmpty
  | none => false

def process_activity_data (now : Int) (activity : RawActivity) : ProcessedActivity :=
  { id := activity.activityId
  , name := activity.activityName.getD ""
  , type := activity.typeKey.getD "unknown"
  , startTime := activity.startTimeLocal
  , duration := activity.duration
  , movingTime := activity.movingDuration
  , calories := activity.calories
  , averageHR := activity.averageHR
  , maxHR := activity.maxHR
  , distance := activity.distance
  , averageSpeed := activity.averageSpeed
  , maxSpeed := activity.maxSpeed
  , elevationGain := activity.elevationGain
  , elevationLoss := activity.elevationLoss
  , createdAt := now
  , updatedAt := now
  , strength :=
      if activity.typeKey == some "strength_training" && truthyGroups activity.fullExerciseSets then
        some { exerciseSets := process_exercise_sets (activity.fullExerciseSets.getD [])
             , totalReps := activity.totalReps
             , totalSets := activity.totalSets }
      else none
  , endurance :=
      if activity.typeKey.getD "" == "cycling" || activity.typeKey.getD "" == "running"
          || activity.typeKey.getD "" == "walking" then
        some { averagePower := activity.avgPower
             , maxPower := activity.maxPower
             , normalizedPower := activity.normalizedPower
             , trainingStressScore := activity.trainingStressScore
             , averageCadence := orTruthy activity.avgRunCadence activity.avgBikeCadence
             , maxCadence := orTruthy activity.maxRunCadence activity.maxBikeCadence }
      else none }

/-- One row of the activities table. -/
structure StoredRow where
  id : Nat
  name : String := ""
  type : String := ""
  startTime : Option Int := none
  duration : Option Int := none
  movingTime : Option Int := none
  calories : Option Int := none
  averageHR : Option Int := none
  maxHR : Option Int := none
  distance : Option Int := none
  averageSpeed : Option Int := none
  maxSpeed : Option Int := none
  elevationGain : Option Int := none
  elevationLoss : Option Int := none
  averagePower : Option Int := none
  maxPower : Option Int := none
  normalizedPower : Option Int := none
  trainingStressScore : Option Int := none
  averageCadence : Option Int := none
  maxCadence : Option Int := none
  totalReps : Option Nat := none
  totalSets : Option Nat := none
  createdAt : Int := 0
  updatedAt : Int := 0
deriving DecidableEq

/-- One row of the exercise_sets table. -/
structure SetRow where
  activityId : Nat
  exerciseName : String
  category : String
  setNumber : Nat
  reps : Nat
  weight : Option ℚ
  duration : Option Int
  restTime : Option Int
  totalVolume : ℚ
deriving DecidableEq

/-- The two relational tables. -/
structure DBState where
  activities : List StoredRow
  exerciseSets : List SetRow
deriving DecidableEq

/-- Behaviour of a persisted session blob when authenticate_garmin tries
to resume it: deserialization raises, the probe raises an authorization
error, the probe raises some other error, or the session is valid. -/
inductive SessionFate where
  | deserFails
  | probeAuthFails
  | probeOtherFails
  | valid
deriving DecidableEq

/-- The key-value store: the watermark key lastSyncTime and the
persisted-session key garth_session. -/
structure KVState where
  lastSyncTime : Option Int
  garthSession : Option SessionFate
deriving DecidableEq

/-- Whole mutable state of a run, with ghost write counters. -/
structure World where
  kv : KVState
  db : DBState
  sessionWrites : Nat
  wmWrites : Nat
deriving DecidableEq

/-- Everything outside the worker: credentials, remote endpoints and
injected database faults.  A page request or enrichment request that
raises is `none`; `lookupFails` and `storeFails` make a database
statement for the given activity id raise. -/
structure Remote where
  credsOk : Bool
  loginOk : Bool
  dumpBlob : SessionFate
  pages : Nat → Option (List RawActivity)
  exerciseSetsResp : Nat → Option (List RawSetGroup)
  lookupFails : Nat → Bool
  storeFails : Nat → Bool

def verify_webhook_signature (signature webhook_secret : Option String) : Bool :=
  signature == webhook_secret || !(match webhook_secret with | some s => !(s == "") | none => false)

/-- The POST /sync route of on_fetch: 401 when the signature check
fails, otherwise the immediate accepted response. -/
def syncRouteStatus (signature webhook_secret : Option String) : Nat :=
  if !(verify_webhook_signature signature webhook_secret) then 401 else 200

/-- The fresh-login tail of authenticate_garmin: on success the dumped
session is persisted (the single session write), on failure the
exception is caught and False returned. -/
def freshLogin (R : Remote) (w : World) : Bool × World :=
  if R.loginOk then
    (true, { w with
              kv := { w.kv with garthSession := some R.dumpBlob },
              sessionWrites := w.sessionWrites + 1 })
  else (false, w)

/-- authenticate_garmin: missing credentials raise (caught, False); a
saved session that deserializes and probes as valid is resumed with no
write; every resume failure falls through to freshLogin. -/
def authenticate_garmin (R : Remote) (w : World) : Bool × World :=
  if !R.credsOk then (false, w)
  else
    match w.kv.garthSession with
    | some SessionFate.valid => (true, w)
    | some _ => freshLogin R w
    | none => freshLogin R w

/-- Filter predicate of the incremental branch of fetch_activities:
the parsed start time is strictly after the watermark. -/
def newerThan (T : Int) (a : RawActivity) : Bool :=
  match a.startTimeLocal with
  | some t => decide (T < t)
  | none => false

/-- The while loop of fetch_activities, with fuel for the recursion and a
ghost counter of issued page requests.  A page request that raises, an
empty page, a page whose filtering raises (a missing start time where the
filter applies), a page with filtered items dropped, and a short page all
stop pagination exactly as the Python breaks do. -/
def fetchLoop (pages : Nat → Option (List RawActivity)) (lastSync : Option Int) (isInit : Bool)
    (maxA : Nat) : Nat → Nat → List RawActivity → Nat → List RawActivity × Nat
  | 0, _start, acc, reqs => (acc, reqs)
  | fuel + 1, start, acc, reqs =>
    if maxA ≤ acc.length then (acc, reqs)
    else
      match pages start with
      | none => (acc, reqs + 1)
      | some resp =>
        if resp.isEmpty then (acc, reqs + 1)
        else
          let doFilter := lastSync.isSome && !isInit
          if doFilter && resp.any (fun a => a.startTimeLocal.isNone) then (acc, reqs + 1)
          else
            let filtered := if doFilter then resp.filter (newerThan (lastSync.getD 0)) else resp
            let acc2 := acc ++ filtered
            if filtered.length < resp.length then (acc2, reqs + 1)
            else if resp.length < PAGE_SIZE then (acc2, reqs + 1)
            else fetchLoop pages lastSync isInit maxA fuel (start + PAGE_SIZE) acc2 (reqs + 1)

/-- fetch_activities: ceiling 1500 on initial sync, 100 otherwise; the
fuel equals the ceiling, which the fuel-stability theorem shows is enough
for the loop to have run to its natural termination. -/
def fetch_activities (pages : Nat → Option (List RawActivity)) (lastSyncTime : Option Int)
    (isInitialSync : Bool) : List RawActivity × Nat :=
  let maxActivities := if isInitialSync then 1500 else 100
  fetchLoop pages lastSyncTime isInitialSync maxActivities maxActivities 0 [] 0

def fetch_activity_exercise_sets (R : Remote) (activityId : Nat) : List RawSetGroup :=
  ((R.exerciseSetsResp activityId).getD [])

def get_activity_by_id (R : Remote) (activityId : Nat) (db : DBState) : Option StoredRow :=
  if R.lookupFails activityId then none
  else db.activities.find? (fun r => r.id == activityId)

def should_update_activity (existing : StoredRow) (newActivity : RawActivity) : Bool :=
  false

/-- The activities-table row that the INSERT OR REPLACE binds.  Binding
succeeds only when both the endurance and the strength key groups are
present in the processed dict; store_activity raises KeyError
otherwise. -/
def mkActivityRow (a : ProcessedActivity) (e : EnduranceFields) (s : StrengthFields) : StoredRow :=
  { id := a.id
  , name := a.name
  , type := a.type
  , startTime := a.startTime
  , duration := a.duration
  , movingTime := a.movingTime
  , calories := a.calories
  , averageHR := a.averageHR
  , maxHR := a.maxHR
  , distance := a.distance
  , averageSpeed := a.averageSpeed
  , maxSpeed := a.maxSpeed
  , elevationGain := a.elevationGain
  , elevationLoss := a.elevationLoss
  , averagePower := e.averagePower
  , maxPower := e.maxPower
  , normalizedPower := e.normalizedPower
  , trainingStressScore := e.trainingStressScore
  , averageCadence := e.averageCadence
  , maxCadence := e.maxCadence
  , totalReps := s.totalReps
  , totalSets := s.totalSets
  , createdAt := a.createdAt
  , updatedAt := a.updatedAt }

/-- The exercise_sets rows inserted for one activity: one row per set,
with a 1-based set number within its exercise group. -/
def setRowsFor (aid : Nat) (groups : List ProcessedGroup) : List SetRow :=
  (groups.map (fun ex =>
    ex.sets.enum.map (fun p =>
      { activityId := aid
      , exerciseName := ex.exerciseName
      , category := ex.category
      , setNumber := p.1 + 1
      , reps := p.2.reps
      , weight := p.2.weight
      , duration := p.2.duration
      , restTime := p.2.restTime
      , totalVolume := (p.2.reps : ℚ) * p.2.weight.getD 0 : SetRow }))).flatten

/-- store_activity.  The INSERT OR REPLACE evaluates all 24 bound dict
entries before any SQL runs: when the endurance or the strength key group
is absent the access raises KeyError and nothing is written.  When all
binds succeed the activity row replaces any row with the same id and, if
the processed dict has a truthy exerciseSets list, the prior set rows of
this activity are deleted and the new ones inserted. -/
def store_activity (R : Remote) (activity : ProcessedActivity) (db : DBState) : Except Unit DBState :=
  match activity.endurance, activity.strength with
  | some e, some s =>
    if R.storeFails activity.id then Except.error ()
    else
      let db1 : DBState :=
        { db with activities :=
            db.activities.filter (fun r => r.id != activity.id) ++ [mkActivityRow activity e s] }
      if !s.exerciseSets.isEmpty then
        Except.ok { db1 with
          exerciseSets :=
            db1.exerciseSets.filter (fun r => r.activityId != activity.id)
              ++ setRowsFor activity.id s.exerciseSets }
      else Except.ok db1
  | _, _ => Except.error ()

/-- The body of the per-activity loop of process_and_store_activities:
skip when the id exists (should_update_activity is always false), enrich
strength training, process, store; any failure is caught and yields no
count and no state change. -/
def processOneActivity (R : Remote) (now : Int) (activity : RawActivity) (db : DBState) :
    Nat × DBState :=
  let existing := get_activity_by_id R activity.activityId db
  if (match existing with
      | some ex => !(should_update_activity ex activity)
      | none => false) then
    (0, db)
  else
    let enriched :=
      if activity.typeKey == some "strength_training" then
        { activity with fullExerciseSets := some (fetch_activity_exercise_sets R activity.activityId) }
      else activity
    let processed := process_activity_data now enriched
    match store_activity R processed db with
    | Except.ok db2 => (1, db2)
    | Except.error _ => (0, db)

def process_and_store_activities (R : Remote) (now : Int) (activities : List RawActivity)
    (db : DBState) : Nat × DBState :=
  activities.foldl
    (fun st a =>
      let r := processOneActivity R now a st.2
      (st.1 + r.1, r.2))
    (0, db)

/-- The aggregate result dict of sync_garmin_data (the error-path dict
carries no counts; they are 0 there). -/
structure SyncResult where
  success : Bool
  activitiesProcessed : Nat
  isInitialSync : Bool
deriving DecidableEq

def sync_garmin_data (R : Remote) (now : Int) (w : World) : SyncResult × World :=
  let auth := authenticate_garmin R w
  if !auth.1 then
    ({ success := false, activitiesProcessed := 0, isInitialSync := false }, auth.2)
  else
    let w1 := auth.2
    let lastSyncTime := w1.kv.lastSyncTime
    let isInitialSync := lastSyncTime.isNone
    let activities := (fetch_activities R.pages lastSyncTime isInitialSync).1
    let res := process_and_store_activities R now activities w1.db
    let w2 : World :=
      { w1 with
        db := res.2,
        kv := { w1.kv with lastSyncTime := some now },
        wmWrites := w1.wmWrites + 1 }
    ({ success := true, activitiesProcessed := res.1, isInitialSync := isInitialSync }, w2)

/-! ## Helper lemmas -/

theorem processed_endurance_none (now : Int) (a : RawActivity)
    (h : a.typeKey = some "strength_training") :
    (process_activity_data now a).endurance = none := by
  unfold process_activity_data
  rw [h]
  rfl

theorem processed_strength_none (now : Int) (a : RawActivity)
    (h : a.typeKey ≠ some "strength_training") :
    (process_activity_data now a).strength = none := by
  have hb : (a.typeKey == some "strength_training") = false := by
    simp [h]
  unfold process_activity_data
  simp [hb]

/-- The two conditional key groups of a processed activity are never both
present, and store_activity binds keys from both: every store raises
KeyError in Python, so the embedding always returns an error. -/
theorem store_process_error (R : Remote) (now : Int) (a : RawActivity) (db : DBState) :
    store_activity R (process_activity_data now a) db = Except.error () := by
  by_cases h : a.typeKey = some "strength_training"
  · have hend := processed_endurance_none now a h
    unfold store_activity
    rw [hend]
  · have hstr := processed_strength_none now a h
    unfold store_activity
    rw [hstr]
    cases he : (process_activity_data now a).endurance <;> rfl

/-- Every per-activity iteration leaves the database unchanged and counts
nothing: either the activity is skipped as already present, or the store
attempt fails on the missing dict keys. -/
theorem processOne_eq (R : Remote) (now : Int) (a : RawActivity) (db : DBState) :
    processOneActivity R now a db = (0, db) := by
  simp only [processOneActivity, store_process_error]
  split <;> rfl

theorem process_and_store_foldl (R : Remote) (now : Int) :
    ∀ (acts : List RawActivity) (p : Nat × DBState),
      acts.foldl
        (fun st a =>
          let r := processOneActivity R now a st.2
          (st.1 + r.1, r.2)) p = p := by
  intro acts
  induction acts with
  | nil => intro p; rfl
  | cons a t ih =>
    intro p
    rw [List.foldl_cons]
    have hstep :
        (let r := processOneActivity R now a p.2
         (p.1 + r.1, r.2)) = p := by
      simp [processOne_eq]
    rw [hstep]
    exact ih p

theorem process_and_store_eq (R : Remote) (now : Int) (acts : List RawActivity) (db : DBState) :
    process_and_store_activities R now acts db = (0, db) := by
  unfold process_and_store_activities
  exact process_and_store_foldl R now acts (0, db)

/-! ## Claim C7: unit conversion in exercise-set processing -/

/-- Claim C7: a raw set weight of 1000 grams maps to exactly 1.00 kg by
dividing by 1000 and rounding to 2 decimals; a raw weight of 0 or absent
maps to a null weight; the total volume of a group is the sum of the
per-set volume terms and a null-weight set contributes a zero term. -/
theorem weight_conversion_policy :
    ∀ s : RawSet,
      (s.weight = some 1000 → (processRawSet s).weight = some 1) ∧
      ((s.weight = some 0 ∨ s.weight = none) → (processRawSet s).weight = none) ∧
      (∀ g : RawSetGroup,
        (processGroup g).totalVolume = ((processGroup g).sets.map setVolumeTerm).sum) ∧
      (∀ p : ProcessedSet, p.weight = none → setVolumeTerm p = 0) := by
  intro s
  refine ⟨?_, ?_, ?_, ?_⟩
  · intro h
    simp only [processRawSet, h]
    norm_num [round2]
  · rintro (h | h) <;> simp [processRawSet, h]
  · intro g
    rfl
  · intro p hp
    simp [setVolumeTerm, hp]

theorem weight_conversion_policy_witness :
    (processRawSet { weight := some 1000 }).weight = some 1 ∧
    (processRawSet { weight := some 0 }).weight = none ∧
    setVolumeTerm { reps := 5, weight := none, duration := none, restTime := none } = 0 :=
  ⟨(weight_conversion_policy { weight := some 1000 }).1 rfl,
   (weight_conversion_policy { weight := some 0 }).2.1 (Or.inl rfl),
   (weight_conversion_policy { weight := some 0 }).2.2.2 _ rfl⟩

/-! ## Claim C9: webhook signature verification -/

/-- Claim C9: with an unset or empty webhook secret the signature check
accepts any request; with a nonempty secret it accepts exactly when the
X-Webhook-Signature header equals the secret; the POST /sync route
answers 401 exactly when the check fails. -/
theorem webhook_auth_policy :
    ∀ signature webhook_secret : Option String,
      ((webhook_secret = none ∨ webhook_secret = some "") →
        verify_webhook_signature signature webhook_secret = true) ∧
      (∀ s, webhook_secret = some s → s ≠ "" →
        (verify_webhook_signature signature webhook_secret = true ↔ signature = some s)) ∧
      (¬ syncRouteStatus signature webhook_secret = 401 ↔
        verify_webhook_signature signature webhook_secret = true) := by
  intro sig sec
  refine ⟨?_, ?_, ?_⟩
  · rintro (h | h) <;> simp [verify_webhook_signature, h]
  · intro s hs hne
    subst hs
    simp [verify_webhook_signature, hne]
  · unfold syncRouteStatus
    cases hv : verify_webhook_signature sig sec <;> simp [hv]

theorem webhook_auth_policy_witness :
    verify_webhook_signature none (some "") = true ∧
    (verify_webhook_signature (some "tok") (some "tok") = true ↔
      (some "tok" : Option String) = some "tok") :=
  ⟨(webhook_auth_policy none (some "")).1 (Or.inr rfl),
   (webhook_auth_policy (some "tok") (some "tok")).2.1 "tok" rfl (by decide)⟩

/-! ## Claim C5: skip of existing activities and idempotence -/

/-- Claim C5: an activity whose id is already in the activities table is
skipped entirely: neither table changes and it is not counted; and
running the per-activity upsert twice leaves the store as after one
run. -/
theorem upsert_skip_idempotent :
    ∀ (R : Remote) (now : Int) (a : RawActivity) (db : DBState),
      ((get_activity_by_id R a.activityId db).isSome = true →
        processOneActivity R now a db = (0, db)) ∧
      (processOneActivity R now a (processOneActivity R now a db).2
        = processOneActivity R now a db) := by
  intro R now a db
  constructor
  · intro h
    rcases Option.isSome_iff_exists.mp h with ⟨ex, hex⟩
    simp [processOneActivity, hex, should_update_activity]
  · simp [processOne_eq]

def c5remote : Remote :=
  { credsOk := true, loginOk := true, dumpBlob := SessionFate.valid
  , pages := fun _ => some [], exerciseSetsResp := fun _ => none
  , lookupFails := fun _ => false, storeFails := fun _ => false }

def c5db : DBState := { activities := [{ id := 4 }], exerciseSets := [] }

def c5activity : RawActivity := { activityId := 4, typeKey := some "running" }

theorem upsert_skip_idempotent_witness :
    processOneActivity c5remote 7 c5activity c5db = (0, c5db) :=
  (upsert_skip_idempotent c5remote 7 c5activity c5db).1 (by decide)

/-! ## Claim C10: failed existence lookup -/

def c10remote : Remote :=
  { credsOk := true, loginOk := true, dumpBlob := SessionFate.valid
  , pages := fun _ => some [], exerciseSetsResp := fun _ => none
  , lookupFails := fun i => i == 7, storeFails := fun _ => false }

def c10db : DBState :=
  { activities := [{ id := 7, type := "running" }], exerciseSets := [] }

def c10activity : RawActivity :=
  { activityId := 7, typeKey := some "running", startTimeLocal := some 5 }

/-- Claim C10, evaluated at the failing input: the existence lookup
swallows the database error and returns none although a row with id 7 is
stored, so the activity is not treated as existing; but the following
store attempt raises on the missing totalReps dict key before any SQL
runs, so contrary to the claim nothing is written again: both tables are
left exactly as they were and the activity is not counted. -/
theorem lookup_failure_no_rewrite_eval :
    get_activity_by_id c10remote c10activity.activityId c10db = none ∧
    c10db.activities = [{ id := 7, type := "running" }] ∧
    processOneActivity c10remote 11 c10activity c10db = (0, c10db) ∧
    store_activity c10remote (process_activity_data 11 c10activity) c10db = Except.error () :=
  ⟨rfl, rfl, processOne_eq c10remote 11 c10activity c10db,
   store_process_error c10remote 11 c10activity c10db⟩

/-! ## Claim C1: initial-sync end-to-end scenario -/

def c1remote : Remote :=
  { credsOk := true, loginOk := true, dumpBlob := SessionFate.valid
  , pages := fun s =>
      if s = 0 then
        some [ { activityId := 1, typeKey := some "strength_training", startTimeLocal := some 10 },
               { activityId := 2, typeKey := some "running", startTimeLocal := some 20 },
               { activityId := 3, typeKey := some "running", startTimeLocal := some 30 } ]
      else some []
  , exerciseSetsResp := fun _ => some
      [ { exerciseName := some "bench_press",
          sets := some [ { repetitionCount := some 5, weight := some 1000 } ] } ]
  , lookupFails := fun _ => false
  , storeFails := fun _ => false }

def c1world : World :=
  { kv := { lastSyncTime := none, garthSession := none }
  , db := { activities := [], exerciseSets := [] }
  , sessionWrites := 0, wmWrites := 0 }

/-- Claim C1, evaluated at the failing input: the initial sync run over
one strength activity (with set detail) and two running activities
completes with success=true and the watermark set to now, but
processedCount is 0 and both tables stay empty, because store_activity
raises KeyError for every activity: the INSERT binds both the endurance
and the strength dict keys, and process_activity_data sets them only for
mutually exclusive activity types. -/
theorem initial_sync_scenario_eval :
    (sync_garmin_data c1remote 999 c1world).1
        = { success := true, activitiesProcessed := 0, isInitialSync := true } ∧
    (sync_garmin_data c1remote 999 c1world).2.db.activities = [] ∧
    (sync_garmin_data c1remote 999 c1world).2.db.exerciseSets = [] ∧
    (sync_garmin_data c1remote 999 c1world).2.kv.lastSyncTime = some 999 := by
  refine ⟨?_, ?_, ?_, ?_⟩ <;> rfl

/-! ## Fetch pagination lemmas -/

theorem fetchLoop_fuel_succ (pages : Nat → Option (List RawActivity)) (lastSync : Option Int)
    (isInit : Bool) (maxA : Nat) :
    ∀ (fuel start : Nat) (acc : List RawActivity) (reqs : Nat),
      maxA ≤ acc.length + PAGE_SIZE * fuel →
      fetchLoop pages lastSync isInit maxA (fuel + 1) start acc reqs
        = fetchLoop pages lastSync isInit maxA fuel start acc reqs := by
  intro fuel
  induction fuel with
  | zero =>
    intro start acc reqs h
    rw [Nat.mul_zero, Nat.add_zero] at h
    conv_lhs => rw [fetchLoop]
    conv_rhs => rw [fetchLoop]
    rw [if_pos h]
  | succ n ih =>
    intro start acc reqs h
    conv_lhs => rw [fetchLoop]
    conv_rhs => rw [fetchLoop]
    by_cases h1 : maxA ≤ acc.length
    · rw [if_pos h1, if_pos h1]
    · rw [if_neg h1, if_neg h1]
      cases hp : pages start with
      | none => rfl
      | some resp =>
        dsimp only
        by_cases h2 : resp.isEmpty = true
        · rw [if_pos h2, if_pos h2]
        · rw [if_neg h2, if_neg h2]
          by_cases h3 : ((lastSync.isSome && !isInit)
              && resp.any fun a => a.startTimeLocal.isNone) = true
          · rw [if_pos h3, if_pos h3]
          · rw [if_neg h3, if_neg h3]
            by_cases h4 : (if (lastSync.isSome && !isInit) = true then
                List.filter (newerThan (lastSync.getD 0)) resp else resp).length < resp.length
            · rw [if_pos h4, if_pos h4]
            · rw [if_neg h4, if_neg h4]
              by_cases h5 : resp.length < PAGE_SIZE
              · rw [if_pos h5, if_pos h5]
              · rw [if_neg h5, if_neg h5]
                apply ih
                rw [List.length_append]
                have hfl : resp.length ≤ (if (lastSync.isSome && !isInit) = true then
                    List.filter (newerThan (lastSync.getD 0)) resp else resp).length :=
                  Nat.le_of_not_lt h4
                have hrl : PAGE_SIZE ≤ resp.length := Nat.le_of_not_lt h5
                simp only [PAGE_SIZE] at h hrl ⊢
                omega

theorem fetch_fuel_stable (pages : Nat → Option (List RawActivity)) (lastSync : Option Int)
    (isInit : Bool) (maxA : Nat) :
    ∀ extra : Nat,
      fetchLoop pages lastSync isInit maxA (maxA + extra) 0 [] 0
        = fetchLoop pages lastSync isInit maxA maxA 0 [] 0 := by
  intro extra
  induction extra with
  | zero => rfl
  | succ k ih =>
    have hstep := fetchLoop_fuel_succ pages lastSync isInit maxA (maxA + k) 0 [] 0
      (by simp only [List.length_nil, PAGE_SIZE]; omega)
    rw [Nat.add_succ, hstep]
    exact ih

theorem fetchLoop_length_le (pages : Nat → Option (List RawActivity)) (lastSync : Option Int)
    (isInit : Bool) (maxA : Nat) (hmax : PAGE_SIZE ∣ maxA)
    (hpages : ∀ s l, pages s = some l → l.length ≤ PAGE_SIZE) :
    ∀ (fuel start : Nat) (acc : List RawActivity) (reqs : Nat),
      acc.length ≤ maxA → PAGE_SIZE ∣ acc.length →
      (fetchLoop pages lastSync isInit maxA fuel start acc reqs).1.length ≤ maxA := by
  intro fuel
  induction fuel with
  | zero => intro start acc reqs hle hdvd; exact hle
  | succ n ih =>
    intro start acc reqs hle hdvd
    conv_lhs => rw [fetchLoop]
    by_cases h1 : maxA ≤ acc.length
    · rw [if_pos h1]; exact hle
    · rw [if_neg h1]
      cases hp : pages start with
      | none => exact hle
      | some resp =>
        dsimp only
        have hresp := hpages start resp hp
        have hstep : acc.length + PAGE_SIZE ≤ maxA := by
          rcases hdvd with ⟨u, hu⟩
          rcases hmax with ⟨v, hv⟩
          simp only [PAGE_SIZE] at hu hv ⊢
          omega
        have hfle : (if (lastSync.isSome && !isInit) = true then
            List.filter (newerThan (lastSync.getD 0)) resp else resp).length ≤ resp.length := by
          split
          · exact List.length_filter_le _ _
          · exact Nat.le_refl _
        by_cases h2 : resp.isEmpty = true
        · rw [if_pos h2]; exact hle
        · rw [if_neg h2]
          by_cases h3 : ((lastSync.isSome && !isInit)
              && resp.any fun a => a.startTimeLocal.isNone) = true
          · rw [if_pos h3]; exact hle
          · rw [if_neg h3]
            by_cases h4 : (if (lastSync.isSome && !isInit) = true then
                List.filter (newerThan (lastSync.getD 0)) resp else resp).length < resp.length
            · rw [if_pos h4]
              simp only [List.length_append]
              simp only [PAGE_SIZE] at hstep hresp hfle ⊢
              omega
            · rw [if_neg h4]
              by_cases h5 : resp.length < PAGE_SIZE
              · rw [if_pos h5]
                simp only [List.length_append]
                simp only [PAGE_SIZE] at hstep hresp hfle ⊢
                omega
              · rw [if_neg h5]
                have hflen : (if (lastSync.isSome && !isInit) = true then
                    List.filter (newerThan (lastSync.getD 0)) resp else resp).length = PAGE_SIZE := by
                  simp only [PAGE_SIZE] at hresp hfle h4 h5 ⊢
                  omega
                apply ih
                · rw [List.length_append, hflen]
                  exact hstep
                · rw [List.length_append, hflen]
                  exact dvd_add hdvd dvd_rfl

theorem newerThan_mem {T : Int} {a : RawActivity} (h : newerThan T a = true) :
    ∃ t, a.startTimeLocal = some t ∧ T < t := by
  unfold newerThan at h
  cases hs : a.startTimeLocal with
  | none => rw [hs] at h; cases h
  | some t =>
    rw [hs] at h
    exact ⟨t, rfl, of_decide_eq_true h⟩

theorem fetchLoop_mem_newer (pages : Nat → Option (List RawActivity)) (T : Int) (maxA : Nat) :
    ∀ (fuel start : Nat) (acc : List RawActivity) (reqs : Nat),
      (∀ a ∈ acc, ∃ t, a.startTimeLocal = some t ∧ T < t) →
      ∀ a ∈ (fetchLoop pages (some T) false maxA fuel start acc reqs).1,
        ∃ t, a.startTimeLocal = some t ∧ T < t := by
  intro fuel
  induction fuel with
  | zero => intro start acc reqs hacc; exact hacc
  | succ n ih =>
    intro start acc reqs hacc
    rw [fetchLoop]
    by_cases h1 : maxA ≤ acc.length
    · rw [if_pos h1]; exact hacc
    · rw [if_neg h1]
      cases hp : pages start with
      | none => exact hacc
      | some resp =>
        simp only [Option.isSome_some, Bool.not_false, Bool.true_and, Option.getD_some,
          eq_self_iff_true, if_true]
        have hext : ∀ a ∈ acc ++ resp.filter (newerThan T),
            ∃ t, a.startTimeLocal = some t ∧ T < t := by
          intro a ha
          rcases List.mem_append.mp ha with h | h
          · exact hacc a h
          · exact newerThan_mem (List.mem_filter.mp h).2
        by_cases h2 : resp.isEmpty = true
        · rw [if_pos h2]; exact hacc
        · rw [if_neg h2]
          by_cases h3 : (resp.any fun a => a.startTimeLocal.isNone) = true
          · rw [if_pos h3]; exact hacc
          · rw [if_neg h3]
            by_cases h4 : (resp.filter (newerThan T)).length < resp.length
            · rw [if_pos h4]; exact hext
            · rw [if_neg h4]
              by_cases h5 : resp.length < PAGE_SIZE
              · rw [if_pos h5]; exact hext
              · rw [if_neg h5]
                exact ih (start + PAGE_SIZE) (acc ++ resp.filter (newerThan T)) (reqs + 1) hext

theorem fetchLoop_stop_on_drop (pages : Nat → Option (List RawActivity)) (T : Int) (maxA : Nat)
    (fuel start : Nat) (acc : List RawActivity) (reqs : Nat) (resp : List RawActivity)
    (hp : pages start = some resp) (hne : resp ≠ [])
    (hall : ∀ a ∈ resp, a.startTimeLocal.isSome = true)
    (hdrop : (resp.filter (newerThan T)).length < resp.length)
    (hlen : acc.length < maxA) :
    fetchLoop pages (some T) false maxA (fuel + 1) start acc reqs
      = (acc ++ resp.filter (newerThan T), reqs + 1) := by
  conv_lhs => rw [fetchLoop]
  rw [if_neg (Nat.not_le.mpr hlen), hp]
  dsimp only
  simp only [Option.isSome_some, Bool.not_false, Bool.true_and, Option.getD_some,
    eq_self_iff_true, if_true]
  have h2 : resp.isEmpty = false := by
    cases resp with
    | nil => exact absurd rfl hne
    | cons a t => rfl
  have hany : (resp.any fun a => a.startTimeLocal.isNone) = false := by
    rw [List.any_eq_false]
    intro a ha
    rcases Option.isSome_iff_exists.mp (hall a ha) with ⟨t, ht⟩
    rw [ht]
    exact Bool.false_ne_true
  rw [if_neg (by rw [h2]; exact Bool.false_ne_true)]
  rw [if_neg (by rw [hany]; exact Bool.false_ne_true)]
  rw [if_pos hdrop]

/-! ## Claim C2: incremental filtering and early stop -/

/-- Claim C2: an incremental fetch (watermark present, not initial sync)
returns only activities whose start time is strictly after the
watermark; and whenever the filter drops at least one activity from a
page, the loop returns right after that page, issuing no further page
request (the request counter grows by exactly one). -/
theorem incremental_filter_policy :
    (∀ (pages : Nat → Option (List RawActivity)) (T : Int),
      ∀ a ∈ (fetch_activities pages (some T) false).1,
        ∃ t, a.startTimeLocal = some t ∧ T < t) ∧
    (∀ (pages : Nat → Option (List RawActivity)) (T : Int) (maxA fuel start : Nat)
        (acc : List RawActivity) (reqs : Nat) (resp : List RawActivity),
      pages start = some resp → resp ≠ [] →
      (∀ a ∈ resp, a.startTimeLocal.isSome = true) →
      (resp.filter (newerThan T)).length < resp.length →
      acc.length < maxA →
      fetchLoop pages (some T) false maxA (fuel + 1) start acc reqs
        = (acc ++ resp.filter (newerThan T), reqs + 1)) := by
  constructor
  · intro pages T
    unfold fetch_activities
    exact fetchLoop_mem_newer pages T _ _ _ _ _ (fun a ha => absurd ha (List.not_mem_nil a))
  · intro pages T maxA fuel start acc reqs resp hp hne hall hdrop hlen
    exact fetchLoop_stop_on_drop pages T maxA fuel start acc reqs resp hp hne hall hdrop hlen

def c2newer : RawActivity := { activityId := 1, startTimeLocal := some 5 }

def c2older : RawActivity := { activityId := 2, startTimeLocal := some 1 }

def c2page : List RawActivity := [c2newer, c2older]

def c2pages : Nat → Option (List RawActivity) :=
  fun s => if s = 0 then some c2page else some []

theorem incremental_filter_policy_witness :
    (∃ t, c2newer.startTimeLocal = some t ∧ (2:Int) < t) ∧
    fetchLoop c2pages (some 2) false 100 1 0 [] 0
      = ([] ++ c2page.filter (newerThan 2), 0 + 1) :=
  ⟨incremental_filter_policy.1 c2pages 2 c2newer (by decide),
   incremental_filter_policy.2 c2pages 2 100 0 0 [] 0 c2page (by decide) (by decide)
     (by decide) (by decide) (by decide)⟩

/-! ## Claim C6: fetch termination, ceilings and the 5-page scenario -/

def demoActivity (id : Nat) : RawActivity :=
  { activityId := id, typeKey := some "running", startTimeLocal := some 1 }

def demoPages : Nat → Option (List RawActivity) :=
  fun start => some ((List.range PAGE_SIZE).map (fun i => demoActivity (start + i)))

/-- Claim C6: the fetch loop terminates for every sequence of remote
pages (giving it any fuel beyond the ceiling returns the very same
result as fetch_activities); under the remote page contract (a page
holds at most PAGE_SIZE activities) the result holds at most 1500
activities on initial sync and at most 100 on incremental sync; and with
ceiling 100, a watermark, and every page full with 20 activities newer
than it, exactly 5 page requests are made and 100 activities
returned. -/
theorem fetch_ceiling_policy :
    (∀ (pages : Nat → Option (List RawActivity)) (lastSync : Option Int) (isInit : Bool)
        (extra : Nat),
      fetchLoop pages lastSync isInit (if isInit then 1500 else 100)
          ((if isInit then 1500 else 100) + extra) 0 [] 0
        = fetch_activities pages lastSync isInit) ∧
    (∀ (pages : Nat → Option (List RawActivity)) (lastSync : Option Int) (isInit : Bool),
      (∀ s l, pages s = some l → l.length ≤ PAGE_SIZE) →
      (fetch_activities pages lastSync isInit).1.length ≤ (if isInit then 1500 else 100)) ∧
    (fetch_activities demoPages (some 0) false).1.length = 100 ∧
    (fetch_activities demoPages (some 0) false).2 = 5 := by
  refine ⟨?_, ?_, ?_, ?_⟩
  · intro pages lastSync isInit extra
    unfold fetch_activities
    exact fetch_fuel_stable pages lastSync isInit _ extra
  · intro pages lastSync isInit hpages
    unfold fetch_activities
    exact fetchLoop_length_le pages lastSync isInit _ (by cases isInit <;> decide) hpages
      _ _ _ _ (Nat.zero_le _) (dvd_zero _)
  · rfl
  · rfl

theorem fetch_ceiling_policy_witness :
    fetchLoop demoPages (some 0) false (if false then 1500 else 100)
        ((if false then 1500 else 100) + 3) 0 [] 0
      = fetch_activities demoPages (some 0) false ∧
    (fetch_activities demoPages (some 0) false).1.length ≤ (if false then 1500 else 100) := by
  constructor
  · exact fetch_ceiling_policy.1 demoPages (some 0) false 3
  · apply fetch_ceiling_policy.2.1 demoPages (some 0) false
    intro s l hl
    unfold demoPages at hl
    injection hl with h
    rw [← h, List.length_map, List.length_range]

/-! ## Authentication and run-level lemmas -/

theorem auth_preserves (R : Remote) (w : World) :
    (authenticate_garmin R w).2.kv.lastSyncTime = w.kv.lastSyncTime ∧
    (authenticate_garmin R w).2.db = w.db ∧
    (authenticate_garmin R w).2.wmWrites = w.wmWrites := by
  unfold authenticate_garmin freshLogin
  split
  · exact ⟨rfl, rfl, rfl⟩
  · split
    · exact ⟨rfl, rfl, rfl⟩
    · split <;> exact ⟨rfl, rfl, rfl⟩
    · split <;> exact ⟨rfl, rfl, rfl⟩

theorem auth_false_world (R : Remote) (w : World) :
    (authenticate_garmin R w).1 = false → (authenticate_garmin R w).2 = w := by
  unfold authenticate_garmin freshLogin
  split
  · intro _; rfl
  · split
    · intro h; exact Bool.noConfusion h
    · split
      · intro h; exact Bool.noConfusion h
      · intro _; rfl
    · split
      · intro h; exact Bool.noConfusion h
      · intro _; rfl

theorem auth_fallthrough (R : Remote) (w : World) (f : SessionFate)
    (hs : w.kv.garthSession = some f) (hf : f ≠ SessionFate.valid) (hc : R.credsOk = true) :
    authenticate_garmin R w = freshLogin R w := by
  unfold authenticate_garmin
  rw [hc, hs]
  cases f
  · rfl
  · rfl
  · rfl
  · exact absurd rfl hf

/-! ## Claim C8: session persistence policy -/

/-- Claim C8: a run performs at most one persisted-session write; the
write happens exactly on the fresh-login path (credentials present,
login succeeds, and no valid saved session was resumed); and every
failure while resuming a saved session (deserialization error, probe
authorization error, or any other probe failure) is non-fatal and falls
through to the fresh credential login. -/
theorem session_write_policy :
    ∀ (R : Remote) (w : World),
      (authenticate_garmin R w).2.sessionWrites ≤ w.sessionWrites + 1 ∧
      ((authenticate_garmin R w).2.sessionWrites = w.sessionWrites + 1 ↔
        (R.credsOk = true ∧ R.loginOk = true ∧ w.kv.garthSession ≠ some SessionFate.valid)) ∧
      (∀ f : SessionFate, w.kv.garthSession = some f → f ≠ SessionFate.valid →
        R.credsOk = true → authenticate_garmin R w = freshLogin R w) := by
  intro R w
  refine ⟨?_, ?_, fun f hs hf hc => auth_fallthrough R w f hs hf hc⟩ <;>
  · rcases hs : w.kv.garthSession with _ | f
    · cases hc : R.credsOk <;> cases hl : R.loginOk <;>
        simp_all [authenticate_garmin, freshLogin, Nat.le_succ, self_eq_add_right]
    · cases f <;> cases hc : R.credsOk <;> cases hl : R.loginOk <;>
        simp_all [authenticate_garmin, freshLogin, Nat.le_succ, self_eq_add_right]

def c8remote : Remote :=
  { credsOk := true, loginOk := true, dumpBlob := SessionFate.valid
  , pages := fun _ => some [], exerciseSetsResp := fun _ => none
  , lookupFails := fun _ => false, storeFails := fun _ => false }

def c8world : World :=
  { kv := { lastSyncTime := none, garthSession := some SessionFate.deserFails }
  , db := { activities := [], exerciseSets := [] }
  , sessionWrites := 0, wmWrites := 0 }

theorem session_write_policy_witness :
    (authenticate_garmin c8remote c8world).2.sessionWrites ≤ c8world.sessionWrites + 1 ∧
    authenticate_garmin c8remote c8world = freshLogin c8remote c8world :=
  ⟨(session_write_policy c8remote c8world).1,
   (session_write_policy c8remote c8world).2.2 SessionFate.deserFails rfl (by decide) rfl⟩

/-! ## Claim C3: watermark write policy -/

/-- Claim C3: when session establishment succeeds, the run writes the
watermark exactly once (the ghost counter grows by one), after the
per-activity loop, to the current time, however many activities failed;
when session establishment fails the run returns success=false and the
watermark (value and write counter) is untouched. -/
theorem watermark_write_policy :
    ∀ (R : Remote) (now : Int) (w : World),
      ((authenticate_garmin R w).1 = true →
        (sync_garmin_data R now w).1.success = true ∧
        (sync_garmin_data R now w).2.kv.lastSyncTime = some now ∧
        (sync_garmin_data R now w).2.wmWrites = w.wmWrites + 1) ∧
      ((authenticate_garmin R w).1 = false →
        (sync_garmin_data R now w).1.success = false ∧
        (sync_garmin_data R now w).2.kv.lastSyncTime = w.kv.lastSyncTime ∧
        (sync_garmin_data R now w).2.wmWrites = w.wmWrites) := by
  intro R now w
  constructor
  · intro h
    have hw := (auth_preserves R w).2.2
    simp only [sync_garmin_data, h, Bool.not_true, Bool.false_eq_true, if_false]
    exact ⟨by trivial, by trivial, by rw [hw]⟩
  · intro h
    have hw := auth_false_world R w h
    simp only [sync_garmin_data, h, Bool.not_false, if_true]
    rw [hw]
    exact ⟨by trivial, by trivial, by trivial⟩

theorem watermark_write_policy_witness :
    (sync_garmin_data c8remote 55 c8world).1.success = true ∧
    (sync_garmin_data c8remote 55 c8world).2.kv.lastSyncTime = some 55 ∧
    (sync_garmin_data c8remote 55 c8world).2.wmWrites = c8world.wmWrites + 1 :=
  (watermark_write_policy c8remote 55 c8world).1 (by decide)

/-! ## Claim C4: aggregate success and per-activity fault isolation -/

/-- Claim C4: whenever authentication succeeds the aggregate result has
success=true, for every combination of fetch, enrichment, processing or
storage failures (all quantified inside Remote), and the processed count
never exceeds the number of fetched activities. -/
theorem run_success_policy :
    ∀ (R : Remote) (now : Int) (w : World),
      (authenticate_garmin R w).1 = true →
      (sync_garmin_data R now w).1.success = true ∧
      (sync_garmin_data R now w).1.activitiesProcessed ≤
        (fetch_activities R.pages w.kv.lastSyncTime w.kv.lastSyncTime.isNone).1.length := by
  intro R now w h
  simp only [sync_garmin_data, h, Bool.not_true, Bool.false_eq_true, if_false]
  refine ⟨by trivial, ?_⟩
  rw [process_and_store_eq]
  exact Nat.zero_le _

theorem run_success_policy_witness :
    (sync_garmin_data c8remote 55 c8world).1.success = true ∧
    (sync_garmin_data c8remote 55 c8world).1.activitiesProcessed ≤
      (fetch_activities c8remote.pages c8world.kv.lastSyncTime
        c8world.kv.lastSyncTime.isNone).1.length :=
  run_success_policy c8remote 55 c8world (by decide)
